import Mathlib

/-!
Verification of the aggregation pipeline of the bike-sharing dashboard
(`dashboard.py`).

The raw tables are embedded as lists of records; numeric columns are
rationals (exact stand-ins for the float results of pandas `mean`);
dataframe columns that a function assigns (`ym`, the six lag columns)
are `Option`-valued fields of the record, `none` meaning the column is
absent / NaN.  Functions of the source that assign columns to their
argument dataframe are embedded as state transformers returning the
post-call dataframe together with the view they compute.

`df.groupby(k).agg(mean).reset_index()` (pandas default `sort=True`)
is embedded as: the distinct keys of the input, sorted ascending, each
mapped to the arithmetic means of the grouped columns over the records
with that key.
-/

/-- One record of the hourly table (`hour.csv`), restricted to the columns
the pipeline reads.  `dteday` is (year, month, day).  `ym` is the column
`create_monthly_trends_df` assigns; it is absent (`none`) on load. -/
structure HourRec where
  dteday : ℤ × ℤ × ℤ
  hr : ℤ
  weekday : ℤ
  mnth : ℤ
  yr : ℤ
  weathersit : ℤ
  casual : ℚ
  registered : ℚ
  cnt : ℚ
  ym : Option (ℤ × ℤ) := none
deriving DecidableEq

/-- One record of the daily table (`day.csv`), restricted to the columns
the pipeline reads, plus the six lag columns `create_lag_analysis_df`
assigns (absent, i.e. NaN-free `none`, on load). -/
structure DayRec where
  dteday : ℤ × ℤ × ℤ
  weathersit : ℤ
  casual : ℚ
  registered : ℚ
  cnt : ℚ
  cnt_lag1 : Option ℚ := none
  cnt_lag2 : Option ℚ := none
  casual_lag1 : Option ℚ := none
  casual_lag2 : Option ℚ := none
  registered_lag1 : Option ℚ := none
  registered_lag2 : Option ℚ := none
deriving DecidableEq

/-- Row of `create_hourly_patterns_df`. -/
structure HourlyRow where
  hr : ℤ
  casual : ℚ
  registered : ℚ
  cnt : ℚ
deriving DecidableEq

/-- Row of `create_daily_patterns_df` (`day_name` is the mapped label,
`none` when the key is unmapped, as pandas `Series.map` yields NaN). -/
structure DailyRow where
  weekday : ℤ
  casual : ℚ
  registered : ℚ
  cnt : ℚ
  day_name : Option String
deriving DecidableEq

/-- Row of `create_weather_impact_df`. -/
structure WeatherRow where
  weathersit : ℤ
  casual : ℚ
  registered : ℚ
  cnt : ℚ
  weather_desc : Option String
deriving DecidableEq

/-- Row of the inline `monthly_trends` aggregation (dashboard.py:378-382). -/
structure MonthlyRow where
  yr : ℤ
  mnth : ℤ
  casual : ℚ
  registered : ℚ
  cnt : ℚ
deriving DecidableEq

/-- Row of the helper `create_monthly_trends_df` view: grouped by
(`ym`, `yr`), aggregating only `cnt`. -/
structure YmRow where
  ym : Option (ℤ × ℤ)
  yr : ℤ
  cnt : ℚ
deriving DecidableEq

/-- Arithmetic mean of a column, as pandas computes it on a non-empty
group (groups are never empty, so the `l = []` junk value is unused
inside views). -/
def mean (l : List ℚ) : ℚ := l.sum / l.length

/-- Result of a pandas/numpy float computation: a finite value, an
infinity, or NaN.  Values are exact rationals. -/
inductive PFloat where
  | fin (q : ℚ)
  | inf
  | neginf
  | nan
deriving DecidableEq

/-- `Series.mean()` of a column: NaN on an empty selection, otherwise
the arithmetic mean. -/
def colMean (l : List ℚ) : PFloat :=
  if l.isEmpty then PFloat.nan else PFloat.fin (mean l)

/-- IEEE-754 style division as numpy performs it (division by zero
yields a signed infinity or NaN, never an exception). -/
def pdiv : PFloat → PFloat → PFloat
  | PFloat.fin a, PFloat.fin b =>
    if b = 0 then
      (if 0 < a then PFloat.inf else if a < 0 then PFloat.neginf else PFloat.nan)
    else PFloat.fin (a / b)
  | PFloat.nan, _ => PFloat.nan
  | _, PFloat.nan => PFloat.nan
  | PFloat.inf, PFloat.inf => PFloat.nan
  | PFloat.inf, PFloat.neginf => PFloat.nan
  | PFloat.neginf, PFloat.inf => PFloat.nan
  | PFloat.neginf, PFloat.neginf => PFloat.nan
  | PFloat.inf, PFloat.fin b => if b < 0 then PFloat.neginf else PFloat.inf
  | PFloat.neginf, PFloat.fin b => if b < 0 then PFloat.inf else PFloat.neginf
  | PFloat.fin _, PFloat.inf => PFloat.fin 0
  | PFloat.fin _, PFloat.neginf => PFloat.fin 0

/-- Subtracting the constant 1, IEEE style. -/
def psub1 : PFloat → PFloat
  | PFloat.fin a => PFloat.fin (a - 1)
  | PFloat.inf => PFloat.inf
  | PFloat.neginf => PFloat.neginf
  | PFloat.nan => PFloat.nan

/-- Multiplying by the positive constant 100, IEEE style. -/
def pmul100 : PFloat → PFloat
  | PFloat.fin a => PFloat.fin (a * 100)
  | PFloat.inf => PFloat.inf
  | PFloat.neginf => PFloat.neginf
  | PFloat.nan => PFloat.nan

/-- `((num / denom) - 1) * 100`, the growth formula of
`pertumbuhan_tahunan` (dashboard.py:392-397). -/
def growthPct (num denom : PFloat) : PFloat := pmul100 (psub1 (pdiv num denom))

/-- Lexicographic order on (yr, mnth) pairs: year ascending, then month
ascending — the order in which pandas sorts a two-column group key. -/
def pairLe (a b : ℤ × ℤ) : Prop := a.1 < b.1 ∨ (a.1 = b.1 ∧ a.2 ≤ b.2)

instance : DecidableRel pairLe := fun a b =>
  decidable_of_iff (a.1 < b.1 ∨ (a.1 = b.1 ∧ a.2 ≤ b.2)) Iff.rfl

instance : IsTrans (ℤ × ℤ) pairLe := by
  constructor
  intro a b c hab hbc
  rcases hab with h1 | ⟨h1, h2⟩ <;> rcases hbc with h3 | ⟨h3, h4⟩ <;>
    unfold pairLe <;> omega

instance : IsTotal (ℤ × ℤ) pairLe := by
  constructor
  intro a b
  unfold pairLe
  omega

/-- Strict lexicographic order on (yr, mnth) pairs. -/
def pairLt (a b : ℤ × ℤ) : Prop := a.1 < b.1 ∨ (a.1 = b.1 ∧ a.2 < b.2)

instance : DecidableRel pairLt := fun a b =>
  decidable_of_iff (a.1 < b.1 ∨ (a.1 = b.1 ∧ a.2 < b.2)) Iff.rfl

/-- Strict order on optional month periods (pandas sorts the period key
chronologically; `none`, the missing key, first). -/
def optYmLt : Option (ℤ × ℤ) → Option (ℤ × ℤ) → Prop
  | none, some _ => True
  | some x, some y => pairLt x y
  | none, none => False
  | some _, none => False

instance : DecidableRel optYmLt := fun a b =>
  match a, b with
  | none, some _ => inferInstanceAs (Decidable True)
  | some x, some y => inferInstanceAs (Decidable (pairLt x y))
  | none, none => inferInstanceAs (Decidable False)
  | some _, none => inferInstanceAs (Decidable False)

/-- Order on the (`ym`, `yr`) group key of `create_monthly_trends_df`. -/
def ymKeyLe (a b : Option (ℤ × ℤ) × ℤ) : Prop :=
  optYmLt a.1 b.1 ∨ (a.1 = b.1 ∧ a.2 ≤ b.2)

instance : DecidableRel ymKeyLe := fun a b =>
  decidable_of_iff (optYmLt a.1 b.1 ∨ (a.1 = b.1 ∧ a.2 ≤ b.2)) Iff.rfl

/-- The group keys `df.groupby(key)` iterates over: the distinct key
values present in the input, in ascending key order (pandas default
`sort=True`). -/
def groupKeys {α κ : Type} [DecidableEq κ] (key : α → κ)
    (le : κ → κ → Prop) [DecidableRel le] (df : List α) : List κ :=
  List.insertionSort le ((df.map key).dedup)

/-- dashboard.py:8-14 — `df.groupby('hr').agg(mean).reset_index()`. -/
def create_hourly_patterns_df (df : List HourRec) : List HourlyRow :=
  (groupKeys (fun r => r.hr) (· ≤ ·) df).map fun h =>
    { hr := h,
      casual := mean ((df.filter (fun r => r.hr = h)).map (fun r => r.casual)),
      registered := mean ((df.filter (fun r => r.hr = h)).map (fun r => r.registered)),
      cnt := mean ((df.filter (fun r => r.hr = h)).map (fun r => r.cnt)) }

/-- dashboard.py:22-25 — the fixed weekday→name mapping; pandas
`Series.map` yields NaN (here `none`) on an unmapped key. -/
def weekdayName (w : ℤ) : Option String :=
  if w = 0 then some "Sunday"
  else if w = 1 then some "Monday"
  else if w = 2 then some "Tuesday"
  else if w = 3 then some "Wednesday"
  else if w = 4 then some "Thursday"
  else if w = 5 then some "Friday"
  else if w = 6 then some "Saturday"
  else none

/-- dashboard.py:16-26 — group by `weekday`, average, then map the
`day_name` label column. -/
def create_daily_patterns_df (df : List HourRec) : List DailyRow :=
  (groupKeys (fun r => r.weekday) (· ≤ ·) df).map fun w =>
    { weekday := w,
      casual := mean ((df.filter (fun r => r.weekday = w)).map (fun r => r.casual)),
      registered := mean ((df.filter (fun r => r.weekday = w)).map (fun r => r.registered)),
      cnt := mean ((df.filter (fun r => r.weekday = w)).map (fun r => r.cnt)),
      day_name := weekdayName w }

/-- dashboard.py:34-39 — the fixed weathersit→description mapping;
`none` (NaN) on an unmapped key. -/
def weatherDesc (w : ℤ) : Option String :=
  if w = 1 then some "Clear"
  else if w = 2 then some "Mist + Cloudy"
  else if w = 3 then some "Light Snow/Rain"
  else if w = 4 then some "Heavy Rain/Snow"
  else none

/-- dashboard.py:28-40 — group by `weathersit`, average, then map the
`weather_desc` label column. -/
def create_weather_impact_df (df : List HourRec) : List WeatherRow :=
  (groupKeys (fun r => r.weathersit) (· ≤ ·) df).map fun w =>
    { weathersit := w,
      casual := mean ((df.filter (fun r => r.weathersit = w)).map (fun r => r.casual)),
      registered := mean ((df.filter (fun r => r.weathersit = w)).map (fun r => r.registered)),
      cnt := mean ((df.filter (fun r => r.weathersit = w)).map (fun r => r.cnt)),
      weather_desc := weatherDesc w }

/-- dashboard.py:43 — `df['ym'] = pd.to_datetime(df['dteday']).dt.to_period('M')`:
assigns to every record the (year, month) period of its date. -/
def setYm (df : List HourRec) : List HourRec :=
  df.map fun r => { r with ym := some (r.dteday.1, r.dteday.2.1) }

/-- dashboard.py:42-48 — `create_monthly_trends_df` assigns the `ym`
column to its argument dataframe (a mutation visible to the caller),
then groups by (`ym`, `yr`) aggregating the mean of `cnt`.  Returned as
(post-call dataframe, view).  The final `astype(str)` relabeling of the
period column is an injective display formatting, kept as the pair. -/
def create_monthly_trends_df (df : List HourRec) : List HourRec × List YmRow :=
  let d := setYm df
  (d,
    (groupKeys (fun r => (r.ym, r.yr)) ymKeyLe d).map fun k =>
      { ym := k.1, yr := k.2,
        cnt := mean ((d.filter (fun r => (r.ym, r.yr) = k)).map (fun r => r.cnt)) })

/-- The (yr, mnth) group key of the inline monthly aggregation. -/
def mtKey (r : HourRec) : ℤ × ℤ := (r.yr, r.mnth)

/-- dashboard.py:378-382 — the inline `monthly_trends` table:
`df.groupby(['yr','mnth']).agg(mean).reset_index()`. -/
def monthly_trends (df : List HourRec) : List MonthlyRow :=
  (groupKeys mtKey pairLe df).map fun k =>
    { yr := k.1, mnth := k.2,
      casual := mean ((df.filter (fun r => mtKey r = k)).map (fun r => r.casual)),
      registered := mean ((df.filter (fun r => mtKey r = k)).map (fun r => r.registered)),
      cnt := mean ((df.filter (fun r => mtKey r = k)).map (fun r => r.cnt)) }

/-- dashboard.py:392-397 — year-over-year growth, computed from the
`monthly_trends` table: for each of `casual` and `registered`,
`((mt[mt.yr==1].field.mean() / mt[mt.yr==0].field.mean()) - 1) * 100`,
with numpy float semantics for the division.  First component of the
pair is `casual`, second is `registered`. -/
def pertumbuhan_tahunan (df : List HourRec) : PFloat × PFloat :=
  let mt := monthly_trends df
  (growthPct (colMean ((mt.filter (fun row => row.yr = 1)).map (fun row => row.casual)))
             (colMean ((mt.filter (fun row => row.yr = 0)).map (fun row => row.casual))),
   growthPct (colMean ((mt.filter (fun row => row.yr = 1)).map (fun row => row.registered)))
             (colMean ((mt.filter (fun row => row.yr = 0)).map (fun row => row.registered))))

/-- dashboard.py:53-58 — the six column assignments
`df['c_lagK'] = df['c'].shift(-K)`: the lag-1 (lag-2) field of the
record at position i holds the count of the record at position i+1
(i+2), `none` (NaN) when no such record exists. -/
def addLagCols : List DayRec → List DayRec
  | [] => []
  | r :: rest =>
    { r with
      cnt_lag1 := (rest.get? 0).map (fun s => s.cnt),
      cnt_lag2 := (rest.get? 1).map (fun s => s.cnt),
      casual_lag1 := (rest.get? 0).map (fun s => s.casual),
      casual_lag2 := (rest.get? 1).map (fun s => s.casual),
      registered_lag1 := (rest.get? 0).map (fun s => s.registered),
      registered_lag2 := (rest.get? 1).map (fun s => s.registered) } :: addLagCols rest

/-- dashboard.py:50-63 — `create_lag_analysis_df` assigns the six lag
columns to its argument dataframe (a mutation visible to the caller),
then returns a copy of the rows with `weathersit >= 3`.  Returned as
(post-call dataframe, view). -/
def create_lag_analysis_df (df : List DayRec) : List DayRec × List DayRec :=
  let d := addLagCols df
  (d, d.filter (fun r => 3 ≤ r.weathersit))

/-- Modelled from the spec: the lag table as §4 describes it — the
records with `weather_condition >= 3`, in chronological order, each
augmented with the counts of positions i+1 and i+2 of the full input
sequence, `none` marking a missing position. -/
def badWeatherLagSpec (df : List DayRec) : List DayRec :=
  (List.range df.length).filterMap fun i =>
    match df.get? i with
    | none => none
    | some r =>
      if 3 ≤ r.weathersit then
        some { r with
          cnt_lag1 := (df.get? (i + 1)).map (fun s => s.cnt),
          cnt_lag2 := (df.get? (i + 2)).map (fun s => s.cnt),
          casual_lag1 := (df.get? (i + 1)).map (fun s => s.casual),
          casual_lag2 := (df.get? (i + 2)).map (fun s => s.casual),
          registered_lag1 := (df.get? (i + 1)).map (fun s => s.registered),
          registered_lag2 := (df.get? (i + 2)).map (fun s => s.registered) }
      else none

/-- Modelled from the spec: year-over-year growth of a count field with
the two means taken over all matching raw records of each year (not over
the monthly-trends table). -/
def growthSpecRaw (df : List HourRec) (field : HourRec → ℚ) : PFloat :=
  growthPct (colMean ((df.filter (fun r => r.yr = 1)).map field))
            (colMean ((df.filter (fun r => r.yr = 0)).map field))

/-- The list of per-(yr, mnth)-group means of a field for the records of
year `y`, computed directly on the raw records (one entry per distinct
(yr, mnth) pair of that year, in first-occurrence order). -/
def monthlyMeansSpec (df : List HourRec) (y : ℤ) (field : HourRec → ℚ) : List ℚ :=
  (((df.filter (fun r => r.yr = y)).map mtKey).dedup).map fun k =>
    mean (((df.filter (fun r => r.yr = y)).filter (fun r => mtKey r = k)).map field)

/-- Erase the derived `ym` column. -/
def stripYm (r : HourRec) : HourRec := { r with ym := none }

/-- Erase the six derived lag columns. -/
def stripLags (r : DayRec) : DayRec :=
  { r with cnt_lag1 := none, cnt_lag2 := none, casual_lag1 := none,
           casual_lag2 := none, registered_lag1 := none, registered_lag2 := none }

/-- Concrete hourly record with all display-irrelevant fields fixed. -/
def mkHR (y mo : ℤ) (hr weekday mnth yr weathersit : ℤ)
    (casual registered cnt : ℚ) : HourRec :=
  { dteday := (y, mo, 1), hr := hr, weekday := weekday, mnth := mnth,
    yr := yr, weathersit := weathersit, casual := casual,
    registered := registered, cnt := cnt }

/-- Input refuting C1: in year 0, month 1 has one record (casual 0) and
month 2 has two records (casual 6 each), so the mean of the monthly
means (3) differs from the mean over all raw records (4). -/
def exC1 : List HourRec :=
  [mkHR 2011 1 0 0 1 0 1 0 0 0,
   mkHR 2011 2 0 0 2 0 1 6 6 12,
   mkHR 2011 2 0 0 2 0 1 6 6 12,
   mkHR 2012 1 0 0 1 1 1 4 4 8]

/-- Input for C2: the year-0 record has casual 0 and registered 0, the
year-1 record has casual 150 and registered 150, so both count fields
divide a positive year-1 mean by a zero year-0 mean. -/
def exC2 : List HourRec :=
  [mkHR 2011 1 0 0 1 0 1 0 0 0,
   mkHR 2012 1 0 0 1 1 1 150 150 300]

/-- Concrete daily record. -/
def mkDR (d : ℤ) (weathersit : ℤ) (casual registered cnt : ℚ) : DayRec :=
  { dteday := (2011, 1, d), weathersit := weathersit, casual := casual,
    registered := registered, cnt := cnt }

/-- Two-day input showing that `create_lag_analysis_df` rewrites its
argument dataframe. -/
def exC3 : List DayRec := [mkDR 1 1 10 20 30, mkDR 2 1 1 2 3]

/-- The spec's example for the lag table: days 1..5, only day 4 has
adverse weather. -/
def exC4 : List DayRec :=
  [mkDR 1 1 10 100 110, mkDR 2 1 20 200 220, mkDR 3 1 30 300 330,
   mkDR 4 3 40 400 440, mkDR 5 1 50 500 550]

/-- Unordered hourly input with a duplicated hour. -/
def exC5 : List HourRec :=
  [mkHR 2011 1 2 0 1 0 1 1 1 2,
   mkHR 2011 1 0 0 1 0 1 1 2 3,
   mkHR 2011 1 0 0 1 0 1 3 2 5]

/-- The spec's weekday example: two Sunday records and one Monday record. -/
def exC6 : List HourRec :=
  [mkHR 2011 1 0 0 1 0 1 10 90 100,
   mkHR 2011 1 0 0 1 0 1 20 80 100,
   mkHR 2011 1 0 1 1 0 1 5 45 50]

/-- Input with an out-of-domain weather code 5. -/
def exC7 : List HourRec :=
  [mkHR 2011 1 0 0 1 0 1 1 1 2,
   mkHR 2011 1 1 0 1 0 5 2 3 5]

/-- Chronologically unsorted monthly input. -/
def exC8 : List HourRec :=
  [mkHR 2012 2 0 0 2 1 1 1 1 2,
   mkHR 2011 3 0 0 3 0 1 2 2 4,
   mkHR 2012 1 0 0 1 1 1 3 3 6,
   mkHR 2011 3 0 0 3 0 1 4 4 8]

/-- Input whose records satisfy cnt = casual + registered. -/
def exC9 : List HourRec :=
  [mkHR 2011 1 0 0 1 0 1 1 2 3,
   mkHR 2011 1 0 0 1 0 1 3 2 5]

/-- Input whose (yr, mnth) fields agree with its dates. -/
def exC10 : List HourRec := [mkHR 2011 1 0 0 1 0 1 1 2 3]

theorem mem_groupKeys {α κ : Type} [DecidableEq κ] (key : α → κ)
    (le : κ → κ → Prop) [DecidableRel le] (df : List α) (k : κ) :
    k ∈ groupKeys key le df ↔ k ∈ df.map key := by
  unfold groupKeys
  rw [List.mem_insertionSort, List.mem_dedup]

theorem nodup_groupKeys {α κ : Type} [DecidableEq κ] (key : α → κ)
    (le : κ → κ → Prop) [DecidableRel le] (df : List α) :
    (groupKeys key le df).Nodup :=
  ((List.perm_insertionSort le _).nodup_iff).mpr (List.nodup_dedup _)

theorem sorted_groupKeys {α κ : Type} [DecidableEq κ] (key : α → κ)
    (le : κ → κ → Prop) [DecidableRel le] [IsTotal κ le] [IsTrans κ le]
    (df : List α) : (groupKeys key le df).Sorted le :=
  List.sorted_insertionSort le _

theorem mean_perm {l l' : List ℚ} (h : l.Perm l') : mean l = mean l' := by
  unfold mean
  rw [h.sum_eq, h.length_eq]

theorem colMean_perm {l l' : List ℚ} (h : l.Perm l') : colMean l = colMean l' := by
  have hlen := h.length_eq
  unfold colMean
  rw [mean_perm h]
  rcases l with _ | ⟨a, t⟩ <;> rcases l' with _ | ⟨b, t'⟩ <;> simp_all

theorem map_mk_keys {κ β : Type} (keys : List κ) (mk : κ → β) (proj : β → κ)
    (h : ∀ k, proj (mk k) = k) : (keys.map mk).map proj = keys := by
  rw [List.map_map, show proj ∘ mk = id from funext h]
  exact List.map_id keys

/-- C5: `hourly_pattern` has one row per hour value present in the input
and no others (no duplicate and no absent key), each row carries the
arithmetic means of the three count fields over the records with that
hour, and rows are ordered ascending by hour. -/
theorem C5_hourly_pattern_shape (df : List HourRec) :
    ((create_hourly_patterns_df df).map (fun row => row.hr)).Nodup ∧
    (∀ h : ℤ, h ∈ (create_hourly_patterns_df df).map (fun row => row.hr) ↔
        h ∈ df.map (fun r => r.hr)) ∧
    ((create_hourly_patterns_df df).map (fun row => row.hr)).Sorted (· ≤ ·) ∧
    ∀ row ∈ create_hourly_patterns_df df,
      row.casual = mean ((df.filter (fun r => r.hr = row.hr)).map (fun r => r.casual)) ∧
      row.registered = mean ((df.filter (fun r => r.hr = row.hr)).map (fun r => r.registered)) ∧
      row.cnt = mean ((df.filter (fun r => r.hr = row.hr)).map (fun r => r.cnt)) := by
  have hmap : (create_hourly_patterns_df df).map (fun row => row.hr)
      = groupKeys (fun r => r.hr) (· ≤ ·) df := map_mk_keys _ _ _ (fun k => rfl)
  refine ⟨?_, ?_, ?_, ?_⟩
  · rw [hmap]; exact nodup_groupKeys _ _ _
  · intro h; rw [hmap]; exact mem_groupKeys _ _ _ h
  · rw [hmap]; exact sorted_groupKeys _ _ _
  · intro row hrow
    unfold create_hourly_patterns_df at hrow
    obtain ⟨k, hk, rfl⟩ := List.mem_map.mp hrow
    exact ⟨rfl, rfl, rfl⟩

theorem C5_witness :
    ((create_hourly_patterns_df exC5).map (fun row => row.hr)).Sorted (· ≤ ·) ∧
    (2:ℤ) ∈ (create_hourly_patterns_df exC5).map (fun row => row.hr) :=
  ⟨(C5_hourly_pattern_shape exC5).2.2.1,
   ((C5_hourly_pattern_shape exC5).2.1 2).mpr (by decide)⟩

/-- C6: `weekday_pattern` groups by weekday and resolves every present
key through the fixed mapping 0=Sunday..6=Saturday; on the spec's
three-record example it yields exactly the Sunday and Monday rows with
means (15, 85, 100) and (5, 45, 50). -/
theorem C6_weekday_pattern :
    (∀ (df : List HourRec), ∀ row ∈ create_daily_patterns_df df,
        row.day_name = weekdayName row.weekday ∧
        row.weekday ∈ df.map (fun r => r.weekday)) ∧
    create_daily_patterns_df exC6 =
      [{ weekday := 0, casual := 15, registered := 85, cnt := 100,
         day_name := some "Sunday" },
       { weekday := 1, casual := 5, registered := 45, cnt := 50,
         day_name := some "Monday" }] := by
  constructor
  · intro df row hrow
    unfold create_daily_patterns_df at hrow
    obtain ⟨k, hk, rfl⟩ := List.mem_map.mp hrow
    exact ⟨rfl, (mem_groupKeys _ _ _ _).mp hk⟩
  · norm_num [create_daily_patterns_df, groupKeys, exC6, mkHR, mean,
      weekdayName, List.insertionSort, List.orderedInsert, List.dedup]

theorem C6_witness :
    ({ weekday := 0, casual := 15, registered := 85, cnt := 100,
       day_name := some "Sunday" } : DailyRow).day_name = weekdayName 0 ∧
    (0:ℤ) ∈ exC6.map (fun r => r.weekday) :=
  C6_weekday_pattern.1 exC6 _
    (by rw [C6_weekday_pattern.2]; exact List.mem_cons_self _ _)

/-- C7: an input key outside the labelled weather domain (such as 5) is
still emitted as its own (single) group, and the label mapping resolves
it to the fallback `none` (pandas NaN) instead of failing. -/
theorem C7_out_of_domain (df : List HourRec) (k : ℤ)
    (hpresent : k ∈ df.map (fun r => r.weathersit))
    (hdom : k < 1 ∨ 4 < k) :
    (∃ row ∈ create_weather_impact_df df,
        row.weathersit = k ∧ row.weather_desc = none) ∧
    ((create_weather_impact_df df).map (fun row => row.weathersit)).Nodup := by
  have hdesc : weatherDesc k = none := by
    unfold weatherDesc
    split_ifs <;> first | rfl | (exfalso; omega)
  constructor
  · unfold create_weather_impact_df
    exact ⟨_, List.mem_map.mpr ⟨k, (mem_groupKeys _ _ _ _).mpr hpresent, rfl⟩,
      rfl, hdesc⟩
  · have hmap : (create_weather_impact_df df).map (fun row => row.weathersit)
        = groupKeys (fun r => r.weathersit) (· ≤ ·) df :=
      map_mk_keys _ _ _ (fun k => rfl)
    rw [hmap]; exact nodup_groupKeys _ _ _

theorem C7_witness :
    (∃ row ∈ create_weather_impact_df exC7,
        row.weathersit = 5 ∧ row.weather_desc = none) ∧
    ((create_weather_impact_df exC7).map (fun row => row.weathersit)).Nodup :=
  C7_out_of_domain exC7 5 (by decide) (by decide)

/-- C8: `monthly_trends` groups by the (yr, mnth) pair — one row per
present pair, carrying the group means — and for any input order its
rows are sorted by year ascending, then month ascending. -/
theorem C8_monthly_trend_sorted (df : List HourRec) :
    ((monthly_trends df).map (fun row => (row.yr, row.mnth))).Sorted pairLe ∧
    ((monthly_trends df).map (fun row => (row.yr, row.mnth))).Nodup ∧
    (∀ k : ℤ × ℤ, k ∈ (monthly_trends df).map (fun row => (row.yr, row.mnth)) ↔
        k ∈ df.map mtKey) ∧
    ∀ row ∈ monthly_trends df,
      row.casual = mean ((df.filter (fun r => mtKey r = (row.yr, row.mnth))).map (fun r => r.casual)) ∧
      row.registered = mean ((df.filter (fun r => mtKey r = (row.yr, row.mnth))).map (fun r => r.registered)) ∧
      row.cnt = mean ((df.filter (fun r => mtKey r = (row.yr, row.mnth))).map (fun r => r.cnt)) := by
  have hmap : (monthly_trends df).map (fun row => (row.yr, row.mnth))
      = groupKeys mtKey pairLe df := map_mk_keys _ _ _ (fun k => rfl)
  refine ⟨?_, ?_, ?_, ?_⟩
  · rw [hmap]; exact sorted_groupKeys _ _ _
  · rw [hmap]; exact nodup_groupKeys _ _ _
  · intro k; rw [hmap]; exact mem_groupKeys _ _ _ k
  · intro row hrow
    unfold monthly_trends at hrow
    obtain ⟨k, hk, rfl⟩ := List.mem_map.mp hrow
    exact ⟨rfl, rfl, rfl⟩

theorem C8_witness :
    ((monthly_trends exC8).map (fun row => (row.yr, row.mnth))).Sorted pairLe ∧
    ((0:ℤ), (3:ℤ)) ∈ (monthly_trends exC8).map (fun row => (row.yr, row.mnth)) :=
  ⟨(C8_monthly_trend_sorted exC8).1,
   ((C8_monthly_trend_sorted exC8).2.2.1 (0, 3)).mpr (by decide)⟩

theorem mean_map_add (g : List HourRec)
    (h : ∀ r ∈ g, r.cnt = r.casual + r.registered) :
    mean (g.map (fun r => r.cnt)) =
      mean (g.map (fun r => r.casual)) + mean (g.map (fun r => r.registered)) := by
  unfold mean
  rw [List.map_congr_left h, List.sum_map_add]
  simp only [List.length_map]
  rw [add_div]

/-- C9: when every input record satisfies cnt = casual + registered,
every row of `hourly_pattern` satisfies the same identity of its three
means, exactly, over rational arithmetic. -/
theorem C9_hourly_sum_invariant (df : List HourRec) (hne : df ≠ [])
    (h : ∀ r ∈ df, r.cnt = r.casual + r.registered) :
    ∀ row ∈ create_hourly_patterns_df df,
      row.cnt = row.casual + row.registered := by
  intro row hrow
  unfold create_hourly_patterns_df at hrow
  obtain ⟨k, hk, rfl⟩ := List.mem_map.mp hrow
  exact mean_map_add _ (fun r hr => h r (List.mem_filter.mp hr).1)

theorem C9_witness :
    ({ hr := 0, casual := 2, registered := 2, cnt := 4 } : HourlyRow).cnt =
      ({ hr := 0, casual := 2, registered := 2, cnt := 4 } : HourlyRow).casual +
      ({ hr := 0, casual := 2, registered := 2, cnt := 4 } : HourlyRow).registered :=
  C9_hourly_sum_invariant exC9 (by decide)
    (by
      intro r hr
      simp only [exC9, mkHR, List.mem_cons, List.not_mem_nil, or_false] at hr
      rcases hr with rfl | rfl <;> norm_num)
    _
    (by
      have hv : create_hourly_patterns_df exC9 =
          [{ hr := 0, casual := 2, registered := 2, cnt := 4 }] := by
        norm_num [create_hourly_patterns_df, groupKeys, exC9, mkHR, mean,
          List.insertionSort, List.orderedInsert, List.dedup]
      rw [hv]
      exact List.mem_cons_self _ _)

theorem create_lag_eq (df : List DayRec) :
    (create_lag_analysis_df df).2 = badWeatherLagSpec df := by
  induction df with
  | nil => rfl
  | cons r rest ih =>
    have hstep : (create_lag_analysis_df (r :: rest)).2
        = (addLagCols (r :: rest)).filter (fun s => 3 ≤ s.weathersit) := rfl
    have htail : (addLagCols rest).filter (fun s => 3 ≤ s.weathersit)
        = badWeatherLagSpec rest := ih
    rw [hstep, addLagCols, List.filter_cons]
    unfold badWeatherLagSpec
    rw [List.length_cons, List.range_succ_eq_map, List.filterMap_cons, List.filterMap_map]
    by_cases h : 3 ≤ r.weathersit <;>
      simp only [List.get?_cons_zero, h, decide_True, decide_False,
        if_true, if_false] <;>
      rw [htail] <;> rfl

/-- C4: `bad_weather_lag` returns exactly the records with
weathersit ≥ 3 in their original order, each augmented with the counts
taken from positions i+1 and i+2 of the full input sequence (missing
positions marked `none`); on the spec's 5-day example where only day 4
has weathersit 3, the output is one row for day 4 with lag1 = day 5's
counts and lag2 missing. -/
theorem C4_bad_weather_lag (df : List DayRec) :
    (create_lag_analysis_df df).2 = badWeatherLagSpec df ∧
    (create_lag_analysis_df exC4).2 =
      [{ dteday := (2011, 1, 4), weathersit := 3, casual := 40,
         registered := 400, cnt := 440,
         cnt_lag1 := some 550, cnt_lag2 := none,
         casual_lag1 := some 50, casual_lag2 := none,
         registered_lag1 := some 500, registered_lag2 := none }] :=
  ⟨create_lag_eq df, by decide⟩

/-- C3 counterexample: `create_lag_analysis_df` hands back an input
collection that has changed — the lag columns were written into it. -/
theorem C3_counterexample : (create_lag_analysis_df exC3).1 ≠ exC3 := by decide

/-- C3 (amended): `hourly_pattern`, `weekday_pattern` and
`weather_pattern` compute their views without writing to the input
(they are plain functions of it), but `create_monthly_trends_df` and
`create_lag_analysis_df` write derived columns (`ym`; the six lag
columns) into the caller's collection; only the original columns are
left unchanged. -/
theorem C3_amended (df : List HourRec) (ddf : List DayRec) :
    (create_monthly_trends_df df).1.map stripYm = df.map stripYm ∧
    (create_lag_analysis_df ddf).1.map stripLags = ddf.map stripLags := by
  constructor
  · show (setYm df).map stripYm = df.map stripYm
    unfold setYm
    rw [List.map_map]
    rfl
  · show (addLagCols ddf).map stripLags = ddf.map stripLags
    induction ddf with
    | nil => rfl
    | cons r rest ih =>
      rw [addLagCols, List.map_cons, List.map_cons, ih]
      rfl

theorem keys_filter_perm (df : List HourRec) (y : ℤ) :
    ((groupKeys mtKey pairLe df).filter (fun k => k.1 = y)).Perm
      (((df.filter (fun r => r.yr = y)).map mtKey).dedup) := by
  apply List.perm_of_nodup_nodup_toFinset_eq
  · exact (nodup_groupKeys _ _ _).filter _
  · exact List.nodup_dedup _
  · ext k
    simp only [List.mem_toFinset, List.mem_filter, List.mem_dedup, mem_groupKeys,
      List.mem_map, decide_eq_true_eq]
    constructor
    · rintro ⟨⟨r, hr, rfl⟩, hy⟩
      exact ⟨r, ⟨hr, hy⟩, rfl⟩
    · rintro ⟨r, ⟨hr, hy⟩, rfl⟩
      exact ⟨⟨r, hr, rfl⟩, hy⟩

theorem group_restrict (df : List HourRec) (y : ℤ) (k : ℤ × ℤ) (hk : k.1 = y) :
    df.filter (fun r => mtKey r = k)
      = (df.filter (fun r => r.yr = y)).filter (fun r => mtKey r = k) := by
  rw [List.filter_filter]
  apply List.filter_congr
  intro r _
  by_cases hmk : mtKey r = k
  · have hyr : r.yr = y := by rw [← hk, ← hmk]; rfl
    simp [hmk, hyr]
  · simp [hmk]

theorem monthly_col_perm (df : List HourRec) (y : ℤ) (f : HourRec → ℚ) :
    (((groupKeys mtKey pairLe df).filter (fun k => k.1 = y)).map
        (fun k => mean ((df.filter (fun r => mtKey r = k)).map f))).Perm
      (monthlyMeansSpec df y f) := by
  unfold monthlyMeansSpec
  have hfun : ∀ k ∈ (groupKeys mtKey pairLe df).filter (fun k => k.1 = y),
      mean ((df.filter (fun r => mtKey r = k)).map f)
        = mean (((df.filter (fun r => r.yr = y)).filter (fun r => mtKey r = k)).map f) := by
    intro k hk
    rw [← group_restrict df y k (of_decide_eq_true (List.mem_filter.mp hk).2)]
  rw [List.map_congr_left hfun]
  exact (keys_filter_perm df y).map _

theorem monthly_filter_map (df : List HourRec) (y : ℤ) (proj : MonthlyRow → ℚ) :
    ((monthly_trends df).filter (fun row => row.yr = y)).map proj
      = ((groupKeys mtKey pairLe df).filter (fun k => k.1 = y)).map
          (fun k => proj
            { yr := k.1, mnth := k.2,
              casual := mean ((df.filter (fun r => mtKey r = k)).map (fun r => r.casual)),
              registered := mean ((df.filter (fun r => mtKey r = k)).map (fun r => r.registered)),
              cnt := mean ((df.filter (fun r => mtKey r = k)).map (fun r => r.cnt)) }) := by
  unfold monthly_trends
  rw [List.filter_map, List.map_map]
  rfl

theorem pertumbuhan_col (df : List HourRec) (y : ℤ) (proj : MonthlyRow → ℚ)
    (f : HourRec → ℚ)
    (hproj : ∀ k : ℤ × ℤ,
      proj { yr := k.1, mnth := k.2,
             casual := mean ((df.filter (fun r => mtKey r = k)).map (fun r => r.casual)),
             registered := mean ((df.filter (fun r => mtKey r = k)).map (fun r => r.registered)),
             cnt := mean ((df.filter (fun r => mtKey r = k)).map (fun r => r.cnt)) }
        = mean ((df.filter (fun r => mtKey r = k)).map f)) :
    colMean (((monthly_trends df).filter (fun row => row.yr = y)).map proj)
      = colMean (monthlyMeansSpec df y f) := by
  have h3 : ((groupKeys mtKey pairLe df).filter (fun k => k.1 = y)).map
        (fun k => proj
          { yr := k.1, mnth := k.2,
            casual := mean ((df.filter (fun r => mtKey r = k)).map (fun r => r.casual)),
            registered := mean ((df.filter (fun r => mtKey r = k)).map (fun r => r.registered)),
            cnt := mean ((df.filter (fun r => mtKey r = k)).map (fun r => r.cnt)) })
      = ((groupKeys mtKey pairLe df).filter (fun k => k.1 = y)).map
        (fun k => mean ((df.filter (fun r => mtKey r = k)).map f)) :=
    List.map_congr_left (fun k _ => hproj k)
  rw [monthly_filter_map df y proj, h3]
  exact colMean_perm (monthly_col_perm df y f)

/-- C1 (amended): the year-over-year growth percentage that the code
computes is `(mean of the per-(year, month) group means for year 1 /
mean of the per-(year, month) group means for year 0 - 1) * 100` — the
mean of the monthly means — not the mean over all matching raw records. -/
theorem C1_growth_monthly_means (df : List HourRec) :
    (pertumbuhan_tahunan df).1 =
      growthPct (colMean (monthlyMeansSpec df 1 (fun r => r.casual)))
                (colMean (monthlyMeansSpec df 0 (fun r => r.casual))) ∧
    (pertumbuhan_tahunan df).2 =
      growthPct (colMean (monthlyMeansSpec df 1 (fun r => r.registered)))
                (colMean (monthlyMeansSpec df 0 (fun r => r.registered))) := by
  constructor
  · show growthPct _ _ = _
    rw [pertumbuhan_col df 1 (fun row => row.casual) (fun r => r.casual) (fun k => rfl),
        pertumbuhan_col df 0 (fun row => row.casual) (fun r => r.casual) (fun k => rfl)]
  · show growthPct _ _ = _
    rw [pertumbuhan_col df 1 (fun row => row.registered) (fun r => r.registered) (fun k => rfl),
        pertumbuhan_col df 0 (fun row => row.registered) (fun r => r.registered) (fun k => rfl)]

theorem exC1_code : (pertumbuhan_tahunan exC1).1 = PFloat.fin (100/3) := by
  norm_num [pertumbuhan_tahunan, monthly_trends, groupKeys, exC1, mkHR, mtKey, mean,
    colMean, growthPct, pdiv, psub1, pmul100, pairLe,
    List.insertionSort, List.orderedInsert, List.dedup]

theorem exC1_spec : growthSpecRaw exC1 (fun r => r.casual) = PFloat.fin 0 := by
  norm_num [growthSpecRaw, exC1, mkHR, mean, colMean, growthPct, pdiv, psub1, pmul100]

/-- C1 counterexample: on a year-0 table whose months have unequal
record counts, the code's growth (100/3 %) differs from the raw-record
formula of the claim (0 %). -/
theorem C1_counterexample :
    (pertumbuhan_tahunan exC1).1 ≠ growthSpecRaw exC1 (fun r => r.casual) := by
  rw [exC1_code, exC1_spec]
  simp only [ne_eq, PFloat.fin.injEq]
  norm_num

theorem exC2_m0c :
    colMean (((monthly_trends exC2).filter (fun row => row.yr = 0)).map
      (fun row => row.casual)) = PFloat.fin 0 := by
  norm_num [monthly_trends, groupKeys, exC2, mkHR, mtKey, mean, colMean, pairLe,
    List.insertionSort, List.orderedInsert, List.dedup]

theorem exC2_m1c :
    colMean (((monthly_trends exC2).filter (fun row => row.yr = 1)).map
      (fun row => row.casual)) = PFloat.fin 150 := by
  norm_num [monthly_trends, groupKeys, exC2, mkHR, mtKey, mean, colMean, pairLe,
    List.insertionSort, List.orderedInsert, List.dedup]

theorem exC2_m0r :
    colMean (((monthly_trends exC2).filter (fun row => row.yr = 0)).map
      (fun row => row.registered)) = PFloat.fin 0 := by
  norm_num [monthly_trends, groupKeys, exC2, mkHR, mtKey, mean, colMean, pairLe,
    List.insertionSort, List.orderedInsert, List.dedup]

theorem exC2_m1r :
    colMean (((monthly_trends exC2).filter (fun row => row.yr = 1)).map
      (fun row => row.registered)) = PFloat.fin 150 := by
  norm_num [monthly_trends, groupKeys, exC2, mkHR, mtKey, mean, colMean, pairLe,
    List.insertionSort, List.orderedInsert, List.dedup]

/-- C2 counterexample: with every year-0 record at casual 0 and
registered 0 and a positive year-1 mean in both columns, the growth
computation yields infinity for both count fields — not an "undefined"
marker, which the claim says it must be and says infinity never is. -/
theorem C2_counterexample : pertumbuhan_tahunan exC2 = (PFloat.inf, PFloat.inf) := by
  show (growthPct _ _, growthPct _ _) = _
  rw [exC2_m1c, exC2_m0c, exC2_m1r, exC2_m0r]
  norm_num [growthPct, pdiv, psub1, pmul100]

/-- C2 (amended): for either count field (casual or registered), when
the year-0 mean of that column is zero (with year-0 rows present) and
the year-1 mean is positive, the growth computation yields positive
infinity under numpy float semantics — no exception reaches the
caller, but no explicit undefined marker is produced either. -/
theorem C2_growth_divzero (df : List HourRec) :
    ((colMean (((monthly_trends df).filter (fun row => row.yr = 0)).map
          (fun row => row.casual)) = PFloat.fin 0) →
      (∃ q : ℚ, 0 < q ∧
          colMean (((monthly_trends df).filter (fun row => row.yr = 1)).map
            (fun row => row.casual)) = PFloat.fin q) →
      (pertumbuhan_tahunan df).1 = PFloat.inf) ∧
    ((colMean (((monthly_trends df).filter (fun row => row.yr = 0)).map
          (fun row => row.registered)) = PFloat.fin 0) →
      (∃ q : ℚ, 0 < q ∧
          colMean (((monthly_trends df).filter (fun row => row.yr = 1)).map
            (fun row => row.registered)) = PFloat.fin q) →
      (pertumbuhan_tahunan df).2 = PFloat.inf) := by
  constructor
  · intro h0 h1
    obtain ⟨q, hq, h1⟩ := h1
    show growthPct _ _ = _
    rw [h0, h1]
    simp [growthPct, pdiv, psub1, pmul100, hq]
  · intro h0 h1
    obtain ⟨q, hq, h1⟩ := h1
    show growthPct _ _ = _
    rw [h0, h1]
    simp [growthPct, pdiv, psub1, pmul100, hq]

theorem C2_witness :
    colMean (((monthly_trends exC2).filter (fun row => row.yr = 0)).map
      (fun row => row.casual)) = PFloat.fin 0 ∧
    colMean (((monthly_trends exC2).filter (fun row => row.yr = 0)).map
      (fun row => row.registered)) = PFloat.fin 0 ∧
    (pertumbuhan_tahunan exC2).1 = PFloat.inf ∧
    (pertumbuhan_tahunan exC2).2 = PFloat.inf :=
  ⟨exC2_m0c, exC2_m0r,
   (C2_growth_divzero exC2).1 exC2_m0c ⟨150, by norm_num, exC2_m1c⟩,
   (C2_growth_divzero exC2).2 exC2_m0r ⟨150, by norm_num, exC2_m1r⟩⟩

theorem ymGroup_eq (df : List HourRec)
    (hcons : ∀ r ∈ df, r.dteday.1 = 2011 + r.yr ∧ r.dteday.2.1 = r.mnth)
    (y m : ℤ) :
    ((setYm df).filter (fun r => (r.ym, r.yr) = (some (2011 + y, m), y))).map
        (fun r => r.cnt)
      = (df.filter (fun r => mtKey r = (y, m))).map (fun r => r.cnt) := by
  unfold setYm
  rw [List.filter_map, List.map_map]
  congr 1
  apply List.filter_congr
  intro r hr
  obtain ⟨h1, h2⟩ := hcons r hr
  show decide ((some (r.dteday.1, r.dteday.2.1), r.yr) = (some (2011 + y, m), y))
      = decide (mtKey r = (y, m))
  rw [decide_eq_decide, h1, h2]
  unfold mtKey
  simp only [Prod.mk.injEq, Option.some.injEq]
  omega

theorem ymRow_cnt (df : List HourRec)
    (hcons : ∀ r ∈ df, r.dteday.1 = 2011 + r.yr ∧ r.dteday.2.1 = r.mnth)
    (r0 : HourRec) (hr0 : r0 ∈ df) :
    mean (((setYm df).filter (fun r => (r.ym, r.yr)
        = (some (r0.dteday.1, r0.dteday.2.1), r0.yr))).map (fun r => r.cnt))
      = mean ((df.filter (fun r => mtKey r = (r0.yr, r0.mnth))).map (fun r => r.cnt)) := by
  obtain ⟨h1, h2⟩ := hcons r0 hr0
  rw [h1, h2]
  exact congrArg mean (ymGroup_eq df hcons r0.yr r0.mnth)

/-- C10: when every record's (yr, mnth) fields agree with its date
(year = 2011 + yr, month = mnth), the helper aggregation keyed by the
date's month period and the inline aggregation keyed by (yr, mnth)
produce the same mean of `cnt` for each corresponding month group, in
both directions. -/
theorem C10_refinement (df : List HourRec)
    (hcons : ∀ r ∈ df, r.dteday.1 = 2011 + r.yr ∧ r.dteday.2.1 = r.mnth) :
    (∀ row ∈ (create_monthly_trends_df df).2, ∃ row2 ∈ monthly_trends df,
        row.ym = some (2011 + row2.yr, row2.mnth) ∧ row.yr = row2.yr ∧
        row.cnt = row2.cnt) ∧
    (∀ row2 ∈ monthly_trends df, ∃ row ∈ (create_monthly_trends_df df).2,
        row.ym = some (2011 + row2.yr, row2.mnth) ∧ row.yr = row2.yr ∧
        row.cnt = row2.cnt) := by
  constructor
  · intro row hrow
    have hrow2 : row ∈ (groupKeys (fun r : HourRec => (r.ym, r.yr)) ymKeyLe
        (setYm df)).map (fun k =>
          ({ ym := k.1, yr := k.2,
             cnt := mean (((setYm df).filter (fun r => (r.ym, r.yr) = k)).map
                 (fun r => r.cnt)) } : YmRow)) := hrow
    obtain ⟨k, hk, rfl⟩ := List.mem_map.mp hrow2
    obtain ⟨rr, hrr, hkey⟩ := List.mem_map.mp ((mem_groupKeys _ _ _ _).mp hk)
    have hrr2 : rr ∈ df.map (fun r : HourRec =>
        { r with ym := some (r.dteday.1, r.dteday.2.1) }) := hrr
    obtain ⟨r0, hr0, rfl⟩ := List.mem_map.mp hrr2
    obtain ⟨h1, h2⟩ := hcons r0 hr0
    refine ⟨_, List.mem_map.mpr ⟨(r0.yr, r0.mnth),
      (mem_groupKeys _ _ _ _).mpr (List.mem_map.mpr ⟨r0, hr0, rfl⟩), rfl⟩, ?_, ?_, ?_⟩
    · show k.1 = some (2011 + r0.yr, r0.mnth)
      rw [← hkey, ← h1, ← h2]
    · show k.2 = r0.yr
      rw [← hkey]
    · show mean (((setYm df).filter (fun r => (r.ym, r.yr) = k)).map (fun r => r.cnt))
        = mean ((df.filter (fun r => mtKey r = (r0.yr, r0.mnth))).map (fun r => r.cnt))
      rw [← hkey]
      exact ymRow_cnt df hcons r0 hr0
  · intro row2 hrow2
    have hrow2' : row2 ∈ (groupKeys mtKey pairLe df).map (fun k =>
        ({ yr := k.1, mnth := k.2,
           casual := mean ((df.filter (fun r => mtKey r = k)).map (fun r => r.casual)),
           registered := mean ((df.filter (fun r => mtKey r = k)).map (fun r => r.registered)),
           cnt := mean ((df.filter (fun r => mtKey r = k)).map (fun r => r.cnt)) } : MonthlyRow)) := hrow2
    obtain ⟨k, hk, rfl⟩ := List.mem_map.mp hrow2'
    obtain ⟨r0, hr0, hkey⟩ := List.mem_map.mp ((mem_groupKeys _ _ _ _).mp hk)
    obtain ⟨h1, h2⟩ := hcons r0 hr0
    have hmem : ((some (r0.dteday.1, r0.dteday.2.1) : Option (ℤ × ℤ)), r0.yr)
        ∈ (setYm df).map (fun r : HourRec => (r.ym, r.yr)) := by
      refine List.mem_map.mpr ⟨{ r0 with ym := some (r0.dteday.1, r0.dteday.2.1) }, ?_, rfl⟩
      exact List.mem_map.mpr ⟨r0, hr0, rfl⟩
    refine ⟨_, List.mem_map.mpr ⟨((some (r0.dteday.1, r0.dteday.2.1) : Option (ℤ × ℤ)), r0.yr),
      (mem_groupKeys _ _ _ _).mpr hmem, rfl⟩, ?_, ?_, ?_⟩
    · rw [← hkey]
      show some (r0.dteday.1, r0.dteday.2.1) = some (2011 + r0.yr, r0.mnth)
      rw [h1, h2]
    · show r0.yr = k.1
      rw [← hkey]
      rfl
    · show mean (((setYm df).filter (fun r => (r.ym, r.yr)
          = (some (r0.dteday.1, r0.dteday.2.1), r0.yr))).map (fun r => r.cnt))
        = mean ((df.filter (fun r => mtKey r = k)).map (fun r => r.cnt))
      rw [← hkey]
      exact ymRow_cnt df hcons r0 hr0

theorem C10_witness :
    ∃ row ∈ (create_monthly_trends_df exC10).2,
      row.ym = some (2011 + (0:ℤ), (1:ℤ)) ∧ row.yr = (0:ℤ) ∧
      row.cnt = ({ yr := 0, mnth := 1, casual := mean [1], registered := mean [2],
                   cnt := mean [3] } : MonthlyRow).cnt :=
  (C10_refinement exC10 (by decide)).2
    { yr := 0, mnth := 1, casual := mean [1], registered := mean [2], cnt := mean [3] }
    (by
      have hv : monthly_trends exC10 =
          [{ yr := 0, mnth := 1, casual := mean [1], registered := mean [2],
             cnt := mean [3] }] := by
        norm_num [monthly_trends, groupKeys, exC10, mkHR, mtKey,
          List.insertionSort, List.orderedInsert, List.dedup]
      rw [hv]
      exact List.mem_cons_self _ _)
